import Mathlib

/-!
Shallow embedding of `src/pyUSBTraffic.py` (class `USBTrafficGenerator`).

The Python program drives a USB device: `setup_backend` locates the libusb
access library, `find_device` enumerates the bus and matches the fixed
vendor/product pair, `generate_traffic` scans the default interface for bulk
endpoints and runs the transfer loop, `stop_traffic` clears the running flag
and releases the device.  External effects (filesystem probes, USB transfer
outcomes, platform) are passed in explicitly as an environment / input lists;
log and message-box calls are recorded as an event trace.
-/

namespace PyUSBTraffic

/-- Lumidigm device identifiers (src lines 24-25). -/
def LUMIDIGM_VID : Nat := 0x1FAE

/-- Lumidigm product identifier. -/
def LUMIDIGM_PID : Nat := 0x0013

/-- `usb.util.ENDPOINT_TYPE_BULK` = 0x02. -/
def ENDPOINT_TYPE_BULK : Nat := 0x02

/-- `usb.util.ENDPOINT_OUT` = 0x00. -/
def ENDPOINT_OUT : Nat := 0x00

/-- `usb.util.endpoint_type(bmAttributes) = bmAttributes & 0x03`. -/
def endpoint_type (bmAttributes : Nat) : Nat := Nat.land bmAttributes 0x03

/-- `usb.util.endpoint_direction(address) = address & 0x80`. -/
def endpoint_direction (address : Nat) : Nat := Nat.land address 0x80

/-- One endpoint descriptor of the default interface. -/
structure Endpoint where
  bEndpointAddress : Nat
  bmAttributes : Nat
deriving DecidableEq, Repr

/-- A USB device as seen by this program: identifier pair plus the endpoint
list of its active configuration's default interface `cfg[(0, 0)]`. -/
structure Device where
  idVendor : Nat
  idProduct : Nat
  endpoints : List Endpoint
deriving DecidableEq, Repr

/-- The libusb backend handle held by the session. -/
inductive Backend where
  | fromPath (i : Nat)
  | default
deriving DecidableEq, Repr

/-- Session state of `USBTrafficGenerator` (fields set in `__init__`). -/
structure Session where
  running : Bool
  device : Option Device
  packet_count : Nat
  byte_count : Nat
  backend : Option Backend
  setup_complete : Bool
deriving DecidableEq, Repr

/-- `__init__`: running false, no device, counters zero, no backend. -/
def initSession : Session :=
  { running := false, device := none, packet_count := 0, byte_count := 0,
    backend := none, setup_complete := false }

/-- Events recorded for log / message-box calls. -/
inductive LogEvent where
  | noDeviceFound
  | noOutputEndpointErr
  | usingEndpoints
  | startingTraffic
  | trafficStopped
  | backendNotFound
  | foundLibusb
  | usingDefaultBackend
  | enumerated
  | deviceNotFound
  | deviceFound
  | deviceReset
  | resetWarning
  | configSet
  | configWarning
  | kernelDriverDetached
  | configFailed
  | configuredOk
  | disposedResources
  | disposeFailed
deriving DecidableEq, Repr

/-- Bulk OUT test used in the endpoint scan (src lines 146-147). -/
def isBulkOut (ep : Endpoint) : Bool :=
  endpoint_type ep.bmAttributes == ENDPOINT_TYPE_BULK &&
    endpoint_direction ep.bEndpointAddress == ENDPOINT_OUT

/-- Bulk non-OUT test: the `else` branch of the scan assigns `ep_in`
for every bulk endpoint whose direction is not OUT (src lines 149-150). -/
def isBulkIn (ep : Endpoint) : Bool :=
  endpoint_type ep.bmAttributes == ENDPOINT_TYPE_BULK &&
    !(endpoint_direction ep.bEndpointAddress == ENDPOINT_OUT)

/-- One step of the endpoint scan loop body (src lines 145-150): a bulk
endpoint overwrites `ep_out` when its direction is OUT and `ep_in`
otherwise; non-bulk endpoints are skipped. -/
def scanStep (acc : Option Endpoint × Option Endpoint) (ep : Endpoint) :
    Option Endpoint × Option Endpoint :=
  if endpoint_type ep.bmAttributes == ENDPOINT_TYPE_BULK then
    if endpoint_direction ep.bEndpointAddress == ENDPOINT_OUT then
      (some ep, acc.2)
    else
      (acc.1, some ep)
  else acc

/-- Endpoint scan of `generate_traffic` (src lines 141-150): iterate over the
interface's endpoints starting from `ep_out = None`, `ep_in = None`. -/
def scanEndpoints (eps : List Endpoint) : Option Endpoint × Option Endpoint :=
  eps.foldl scanStep (none, none)

/-- Outcome of one `device.write` / `device.read` call: either the byte count
transferred, a `usb.core.USBError` carrying an errno, or another exception. -/
inductive XferResult where
  | ok (n : Nat)
  | usbErr (errno : Int)
  | exn
deriving DecidableEq, Repr

/-- Inputs the environment supplies to one iteration of the transfer loop:
whether another thread cleared `self.running` before the loop's check, and
the outcomes of this iteration's write and (if attempted) read. -/
structure IterInput where
  extStop : Bool
  writeRes : XferResult
  readRes : XferResult
deriving DecidableEq, Repr

/-- Packet synthesis (src line 162): `bytes([random.getrandbits(8) for _ in
range(64)])`.  `rand` is the random source, each draw an 8-bit value. -/
def make_packet (rand : Nat → Fin 256) : List Nat :=
  (List.range 64).map (fun i => (rand i).val)

/-- Body of one transfer-loop iteration (src lines 160-186), given the
session counters.  Returns the updated counters and whether the loop
continues: a write error (`except` clauses at 181-186) breaks; a read
`USBError` with errno ≠ -7 is re-raised and breaks; errno -7 is ignored
(src line 175); any other read exception breaks. -/
def loopBody (hasIn : Bool) (pc bc : Nat) (inp : IterInput) : Nat × Nat × Bool :=
  match inp.writeRes with
  | .ok written =>
    let pc := pc + 1
    let bc := bc + written
    if hasIn then
      match inp.readRes with
      | .ok n => (pc, bc + n, true)
      | .usbErr e => if e == -7 then (pc, bc, true) else (pc, bc, false)
      | .exn => (pc, bc, false)
    else
      (pc, bc, true)
  | .usbErr _ => (pc, bc, false)
  | .exn => (pc, bc, false)

/-- The `while self.running:` loop (src line 159), consuming one `IterInput`
per iteration.  Returns final packet count, byte count and running flag as
they stand when the loop exits (the `finally` clause runs afterwards, in
`generate_traffic`). -/
def runLoop (hasIn : Bool) : Nat → Nat → Bool → List IterInput → Nat × Nat × Bool
  | pc, bc, running, [] => (pc, bc, running)
  | pc, bc, running, inp :: rest =>
    let r := running && !inp.extStop
    if r then
      let step := loopBody hasIn pc bc inp
      if step.2.2 then runLoop hasIn step.1 step.2.1 r rest
      else (step.1, step.2.1, r)
    else (pc, bc, r)

/-- Statements of the `if not ep_out:` block, src lines 152-156, kept in
source order: the error log, the message box, the `return`, and the
diagnostic "Using endpoints" log placed after the return. -/
inductive Stmt where
  | log (e : LogEvent)
  | showError
  | ret
deriving DecidableEq, Repr

/-- Executes a statement list, collecting log events; execution stops at the
first `return`. -/
def execUntilRet : List Stmt → List LogEvent
  | [] => []
  | .log e :: rest => e :: execUntilRet rest
  | .showError :: rest => execUntilRet rest
  | .ret :: _ => []

/-- The body of `if not ep_out:` (src lines 152-156) statement by statement. -/
def noOutputEndpointBlock : List Stmt :=
  [.log .noOutputEndpointErr, .showError, .ret, .log .usingEndpoints]

/-- `generate_traffic` (src lines 131-193).  Early-returns when the session
holds no device (before the try/finally, so `running` is untouched); scans
endpoints; errors out when no bulk OUT endpoint exists; otherwise runs the
transfer loop.  The `finally` clause clears `running` on every path that
entered the `try`. -/
def generate_traffic (s : Session) (inputs : List IterInput) :
    Session × List LogEvent :=
  match s.device with
  | none => (s, [.noDeviceFound])
  | some dev =>
    let eps := scanEndpoints dev.endpoints
    match eps.1 with
    | none =>
      ({ s with running := false },
       execUntilRet noOutputEndpointBlock ++ [.trafficStopped])
    | some _ =>
      let res := runLoop eps.2.isSome s.packet_count s.byte_count s.running inputs
      ({ s with packet_count := res.1, byte_count := res.2.1, running := false },
       [.startingTraffic, .trafficStopped])

/-- `stop_traffic` (src lines 195-206): clear `running`, dispose resources
(failures logged and swallowed), drop the device handle.  Counters are not
touched. -/
def stop_traffic (s : Session) (disposeFails : Bool) : Session × List LogEvent :=
  let evs :=
    match s.device with
    | some _ => if disposeFails then [LogEvent.disposeFailed] else [LogEvent.disposedResources]
    | none => []
  ({ s with running := false, device := none }, evs ++ [.trafficStopped])

/-- The platform branch taken by `platform.system() == 'Windows'` checks. -/
inductive Platform where
  | windows
  | posix
deriving DecidableEq, Repr

/-- Outcome of a `device.set_configuration()` call: success, a
`usb.core.USBError`, or another exception. -/
inductive SetCfgResult where
  | ok
  | usbErr
  | exn
deriving DecidableEq, Repr

/-- Environment for backend setup and device discovery: the platform, which
of the three known libusb paths exist (src lines 44-48), the attached
devices, and whether the platform-conditional configuration calls fail. -/
structure Env where
  platform : Platform
  pathExists : List Bool
  bus : List Device
  resetFails : Bool
  setConfigResult : SetCfgResult
  kernelDriverActive : Bool
  detachFails : Bool
deriving DecidableEq, Repr

/-- `setup_backend` (src lines 39-69).  On Windows, probe the known libusb
paths in order and take the first that exists; fail with the backend-not-found
error if none does.  Elsewhere use the default backend.  On success set
`_setup_complete`. -/
def setup_backend (env : Env) (s : Session) : Session × Bool × List LogEvent :=
  match env.platform with
  | .windows =>
    match env.pathExists.findIdx? (fun b => b) with
    | some i =>
      ({ s with backend := some (.fromPath i), setup_complete := true },
       true, [.foundLibusb])
    | none => (s, false, [.backendNotFound])
  | .posix =>
    ({ s with backend := some .default, setup_complete := true },
     true, [.usingDefaultBackend])

/-- `usb.core.find(idVendor=vid, idProduct=pid)`: the first attached device
matching both identifiers, if any. -/
def usb_core_find (bus : List Device) (vid pid : Nat) : Option Device :=
  bus.find? (fun d => d.idVendor == vid && d.idProduct == pid)

/-- `find_device` (src lines 71-129).  Ensures the backend is set up (failing
without touching the bus otherwise), enumerates all devices, searches for the
fixed vendor/product pair, and on a match performs platform-conditional
configuration: on Windows a best-effort reset (bare except) and a
`set_configuration` whose `USBError` is only a warning, any other exception
falling through to the outer handler; on Linux/Mac a kernel-driver detach and
a `set_configuration` whose failures all reach the outer handler and return
failure. -/
def find_device (env : Env) (s : Session) : Session × Bool × List LogEvent :=
  let setup :=
    if !s.setup_complete then setup_backend env s else (s, true, [])
  let s1 := setup.1
  if !setup.2.1 then (s1, false, setup.2.2)
  else
    let evs := setup.2.2 ++ [.enumerated]
    match usb_core_find env.bus LUMIDIGM_VID LUMIDIGM_PID with
    | none => (s1, false, evs ++ [.deviceNotFound])
    | some dev =>
      let s2 := { s1 with device := some dev }
      let evs := evs ++ [.deviceFound]
      match env.platform with
      | .windows =>
        let evs := evs ++ (if env.resetFails then [.resetWarning] else [.deviceReset])
        match env.setConfigResult with
        | .ok => (s2, true, evs ++ [.configSet, .configuredOk])
        | .usbErr => (s2, true, evs ++ [.configWarning, .configuredOk])
        | .exn => (s2, false, evs ++ [.configFailed])
      | .posix =>
        if env.kernelDriverActive && env.detachFails then
          (s2, false, evs ++ [.configFailed])
        else
          let evs := evs ++ (if env.kernelDriverActive then [.kernelDriverDetached] else [])
          match env.setConfigResult with
          | .ok => (s2, true, evs ++ [.configSet, .configuredOk])
          | .usbErr => (s2, false, evs ++ [.configFailed])
          | .exn => (s2, false, evs ++ [.configFailed])

/-! ### Endpoint-scan characterization -/

lemma scanStep_eq (acc : Option Endpoint × Option Endpoint) (ep : Endpoint) :
    scanStep acc ep =
      ((if isBulkOut ep then some ep else acc.1),
       (if isBulkIn ep then some ep else acc.2)) := by
  unfold scanStep isBulkOut isBulkIn
  cases h1 : (endpoint_type ep.bmAttributes == ENDPOINT_TYPE_BULK) <;>
    cases h2 : (endpoint_direction ep.bEndpointAddress == ENDPOINT_OUT) <;>
    simp [h1, h2]

lemma or_if_some (a c : Option Endpoint) (p : Bool) (x : Endpoint) :
    a.or (if p then some x else c) = (a.or (if p then some x else none)).or c := by
  cases a <;> cases p <;> simp [Option.or]

lemma find?_singleton (p : Endpoint → Bool) (e : Endpoint) :
    List.find? p [e] = if p e then some e else none := by
  cases h : p e <;> simp [List.find?, h]

lemma foldl_scanStep (eps : List Endpoint) :
    ∀ init, eps.foldl scanStep init =
      ((eps.reverse.find? isBulkOut).or init.1,
       (eps.reverse.find? isBulkIn).or init.2) := by
  induction eps with
  | nil => intro init; simp
  | cons e rest ih =>
    intro init
    rw [List.foldl_cons, ih, scanStep_eq]
    simp only [List.reverse_cons, List.find?_append, find?_singleton, Prod.mk.injEq]
    exact ⟨or_if_some _ _ _ _, or_if_some _ _ _ _⟩

lemma scanEndpoints_eq (eps : List Endpoint) :
    scanEndpoints eps = (eps.reverse.find? isBulkOut, eps.reverse.find? isBulkIn) := by
  unfold scanEndpoints
  rw [foldl_scanStep]
  cases h1 : eps.reverse.find? isBulkOut <;> cases h2 : eps.reverse.find? isBulkIn <;>
    simp [Option.or]

lemma scanEndpoints_fst_eq_none (eps : List Endpoint)
    (h : ∀ ep ∈ eps, isBulkOut ep = false) : (scanEndpoints eps).1 = none := by
  rw [scanEndpoints_eq]
  simp only [List.find?_eq_none, List.mem_reverse]
  intro ep hep
  simp [h ep hep]

/-- C10: the endpoint scan selects, among the bulk endpoints of the default
interface, the last OUT-direction one in iteration order as `ep_out` and the
last non-OUT-direction one as `ep_in` (the first match in reverse iteration
order); in particular with two bulk OUT endpoints the earlier one is
silently overwritten by the later. -/
theorem scan_selects_last_bulk :
    (∀ eps : List Endpoint,
      (scanEndpoints eps).1 = eps.reverse.find? isBulkOut ∧
      (scanEndpoints eps).2 = eps.reverse.find? isBulkIn) ∧
    (∀ e1 e2 : Endpoint, isBulkOut e1 = true → isBulkOut e2 = true →
      (scanEndpoints [e1, e2]).1 = some e2) := by
  constructor
  · intro eps
    rw [scanEndpoints_eq]
    exact ⟨rfl, rfl⟩
  · intro e1 e2 h1 h2
    rw [scanEndpoints_eq [e1, e2]]
    simp [List.find?, h2]

/-- C10 witness: concrete instantiation on a two-element list of bulk OUT
endpoints (addresses 0x01 and 0x02): the later endpoint wins. -/
theorem scan_selects_last_bulk_witness :
    (scanEndpoints [⟨0x01, 0x02⟩, ⟨0x02, 0x02⟩]).1 = some ⟨0x02, 0x02⟩ :=
  scan_selects_last_bulk.2 ⟨0x01, 0x02⟩ ⟨0x02, 0x02⟩ (by decide) (by decide)

/-- C8: the diagnostic "Using endpoints" log statement (src line 156) is
dead code: placed after the `return` inside the `if not ep_out:` block, it
is executed on no input, so the event never appears in the trace of
`generate_traffic`. -/
theorem usingEndpoints_unreachable (s : Session) (inputs : List IterInput) :
    LogEvent.usingEndpoints ∉ (generate_traffic s inputs).2 := by
  rcases hs : s.device with _ | dev
  · simp [generate_traffic, hs]
  · rcases h1 : (scanEndpoints dev.endpoints).1 with _ | ep
    · simp [generate_traffic, hs, h1, execUntilRet, noOutputEndpointBlock]
    · simp [generate_traffic, hs, h1]

/-- C9: calling `generate_traffic` with no device handle returns at once
(src lines 133-135), before the try/finally, leaving the whole session state
unchanged — in particular the running flag is not cleared. -/
theorem generate_traffic_no_device (s : Session) (inputs : List IterInput)
    (h : s.device = none) :
    generate_traffic s inputs = (s, [LogEvent.noDeviceFound]) := by
  unfold generate_traffic
  rw [h]

/-- C9 witness: a running session with nonzero counters and no device is
returned untouched. -/
theorem generate_traffic_no_device_witness :
    generate_traffic
        { initSession with running := true, packet_count := 5, byte_count := 7 }
        [⟨false, .ok 64, .ok 64⟩] =
      ({ initSession with running := true, packet_count := 5, byte_count := 7 },
       [LogEvent.noDeviceFound]) :=
  generate_traffic_no_device _ _ rfl

/-! ### Transfer-loop lemmas -/

/-- An iteration input that makes the loop body break: a write error of any
kind, or (when a read is attempted) a read failure other than the errno -7
timeout. -/
def isFatal (hasIn : Bool) (inp : IterInput) : Bool :=
  match inp.writeRes with
  | .ok _ =>
    hasIn &&
      (match inp.readRes with
       | .ok _ => false
       | .usbErr e => !(e == -7)
       | .exn => true)
  | .usbErr _ => true
  | .exn => true

lemma loopBody_continue_iff (hasIn : Bool) (pc bc : Nat) (inp : IterInput) :
    (loopBody hasIn pc bc inp).2.2 = !isFatal hasIn inp := by
  rcases inp with ⟨es, wr, rr⟩
  cases wr <;> cases hasIn <;> cases rr <;>
    simp [loopBody, isFatal] <;>
    split <;> simp_all

lemma loopBody_counts_le (hasIn : Bool) (pc bc : Nat) (inp : IterInput) :
    pc ≤ (loopBody hasIn pc bc inp).1 ∧ bc ≤ (loopBody hasIn pc bc inp).2.1 := by
  rcases inp with ⟨es, wr, rr⟩
  cases wr <;> cases hasIn <;> cases rr <;> simp [loopBody] <;>
    (try split) <;> (try simp) <;> omega

lemma runLoop_counts_le (hasIn : Bool) (inputs : List IterInput) :
    ∀ pc bc r, pc ≤ (runLoop hasIn pc bc r inputs).1 ∧
      bc ≤ (runLoop hasIn pc bc r inputs).2.1 := by
  induction inputs with
  | nil => intro pc bc r; simp [runLoop]
  | cons inp rest ih =>
    intro pc bc r
    have hb := loopBody_counts_le hasIn pc bc inp
    by_cases hr : (r && !inp.extStop) = true
    · by_cases hc : (loopBody hasIn pc bc inp).2.2 = true
      · have := ih (loopBody hasIn pc bc inp).1 (loopBody hasIn pc bc inp).2.1 true
        simp only [runLoop, hr, if_true, hc]
        omega
      · simp only [runLoop, hr, if_true, Bool.not_eq_true] at *
        simp [hc]
        omega
    · simp [runLoop, hr]

lemma runLoop_all_ok (pc bc : Nat) (N : Nat) :
    runLoop true pc bc true (List.replicate N ⟨false, .ok 64, .ok 64⟩) =
      (pc + N, bc + 128 * N, true) := by
  induction N generalizing pc bc with
  | zero => simp [runLoop]
  | succ n ih =>
    rw [List.replicate_succ]
    show runLoop true pc bc true (⟨false, .ok 64, .ok 64⟩ :: List.replicate n ⟨false, .ok 64, .ok 64⟩) = _
    simp only [runLoop, loopBody]
    norm_num
    rw [ih]
    simp only [Prod.mk.injEq, and_true]
    omega

/-- C1: in the transfer loop, a read `USBError` with errno -7 (timed out) is
swallowed and the loop continues into the remaining iterations; any other
read or write transfer error makes the loop exit after that very iteration,
ignoring all further inputs; and once `generate_traffic` is past the device
check, its `finally` clause leaves the running flag cleared. -/
theorem loop_error_handling :
    (∀ (pc bc w : Nat) (rest : List IterInput),
      runLoop true pc bc true (⟨false, .ok w, .usbErr (-7)⟩ :: rest) =
        runLoop true (pc + 1) (bc + w) true rest) ∧
    (∀ (hasIn : Bool) (pc bc : Nat) (inp : IterInput) (rest : List IterInput),
      inp.extStop = false → isFatal hasIn inp = true →
      runLoop hasIn pc bc true (inp :: rest) =
        ((loopBody hasIn pc bc inp).1, (loopBody hasIn pc bc inp).2.1, true)) ∧
    (∀ (s : Session) (dev : Device) (inputs : List IterInput),
      s.device = some dev → (generate_traffic s inputs).1.running = false) := by
  refine ⟨?_, ?_, ?_⟩
  · intro pc bc w rest
    simp [runLoop, loopBody]
  · intro hasIn pc bc inp rest hes hf
    have hcont : (loopBody hasIn pc bc inp).2.2 = false := by
      rw [loopBody_continue_iff, hf]
      rfl
    simp [runLoop, hes, hcont]
  · intro s dev inputs hdev
    rcases h1 : (scanEndpoints dev.endpoints).1 with _ | ep <;>
      simp [generate_traffic, hdev, h1]

/-- C1 witness: a timed-out read (errno -7) lets a second iteration run,
while a non-timeout read error (errno -5) after a successful 64-byte write
stops the loop with the remaining input unconsumed. -/
theorem loop_error_handling_witness :
    runLoop true 0 0 true
        [⟨false, .ok 64, .usbErr (-7)⟩, ⟨false, .ok 64, .ok 64⟩] =
      runLoop true 1 64 true [⟨false, .ok 64, .ok 64⟩] ∧
    runLoop true 0 0 true
        [⟨false, .ok 64, .usbErr (-5)⟩, ⟨false, .ok 64, .ok 64⟩] =
      (1, 64, true) ∧
    (generate_traffic
        { initSession with device := some ⟨0x1FAE, 0x0013, [⟨0x02, 0x02⟩]⟩ }
        []).1.running = false := by
  refine ⟨?_, ?_, ?_⟩
  · exact loop_error_handling.1 0 0 64 [⟨false, .ok 64, .ok 64⟩]
  · exact loop_error_handling.2.1 true 0 0 ⟨false, .ok 64, .usbErr (-5)⟩
      [⟨false, .ok 64, .ok 64⟩] rfl (by decide)
  · exact loop_error_handling.2.2 _ ⟨0x1FAE, 0x0013, [⟨0x02, 0x02⟩]⟩ [] rfl

/-- C3: each packet is exactly 64 bytes, every byte an 8-bit value; a fully
successful iteration with an IN endpoint advances the counters by
(+1, +written+read) and without one by (+1, +written); starting from the
initial counters, N iterations in which every write and read moves the full
64 bytes leave packet_count = N and byte_count = 128·N. -/
theorem loop_counts_per_iteration :
    (∀ rand, (make_packet rand).length = 64 ∧
      (make_packet rand).all (fun x => decide (x < 256)) = true) ∧
    (∀ pc bc w r : Nat,
      loopBody true pc bc ⟨false, .ok w, .ok r⟩ = (pc + 1, bc + w + r, true)) ∧
    (∀ (pc bc w : Nat) (rr : XferResult),
      loopBody false pc bc ⟨false, .ok w, rr⟩ = (pc + 1, bc + w, true)) ∧
    (∀ N : Nat,
      runLoop true initSession.packet_count initSession.byte_count true
          (List.replicate N ⟨false, .ok 64, .ok 64⟩) = (N, 128 * N, true)) := by
  refine ⟨?_, ?_, ?_, ?_⟩
  · intro rand
    constructor
    · simp [make_packet]
    · simp only [List.all_eq_true, make_packet, List.mem_map, List.mem_range]
      rintro x ⟨i, _, rfl⟩
      simp [(rand i).isLt]
  · intro pc bc w r
    simp [loopBody]
  · intro pc bc w rr
    simp [loopBody]
  · intro N
    have h := runLoop_all_ok initSession.packet_count initSession.byte_count N
    simpa [initSession] using h

/-! ### Counter preservation across the other operations -/

lemma setup_backend_counts (env : Env) (s : Session) :
    (setup_backend env s).1.packet_count = s.packet_count ∧
    (setup_backend env s).1.byte_count = s.byte_count := by
  cases hp : env.platform
  · cases h : env.pathExists.findIdx? (fun b => b) <;> simp [setup_backend, hp, h]
  · simp [setup_backend, hp]

lemma find_device_counts (env : Env) (s : Session) :
    (find_device env s).1.packet_count = s.packet_count ∧
    (find_device env s).1.byte_count = s.byte_count := by
  have hsb := setup_backend_counts env s
  simp only [find_device]
  repeat' split <;> (try simp_all)

lemma generate_traffic_counts_le (s : Session) (inputs : List IterInput) :
    s.packet_count ≤ (generate_traffic s inputs).1.packet_count ∧
    s.byte_count ≤ (generate_traffic s inputs).1.byte_count := by
  rcases hs : s.device with _ | dev
  · simp [generate_traffic, hs]
  · rcases h1 : (scanEndpoints dev.endpoints).1 with _ | ep
    · simp [generate_traffic, hs, h1]
    · have h := runLoop_counts_le (scanEndpoints dev.endpoints).2.isSome inputs
        s.packet_count s.byte_count s.running
      simp only [generate_traffic, hs, h1]
      simpa using h

/-- C4: the packet and byte counters never decrease across any operation of
the session: `setup_backend`, `find_device` and `stop_traffic` leave them
exactly unchanged, `generate_traffic` only grows them; and `stop_traffic`
called while not running leaves the counters unchanged and the running flag
false. -/
theorem counters_monotone :
    (∀ (env : Env) (s : Session),
      (setup_backend env s).1.packet_count = s.packet_count ∧
      (setup_backend env s).1.byte_count = s.byte_count) ∧
    (∀ (env : Env) (s : Session),
      (find_device env s).1.packet_count = s.packet_count ∧
      (find_device env s).1.byte_count = s.byte_count) ∧
    (∀ (s : Session) (inputs : List IterInput),
      s.packet_count ≤ (generate_traffic s inputs).1.packet_count ∧
      s.byte_count ≤ (generate_traffic s inputs).1.byte_count) ∧
    (∀ (s : Session) (d : Bool),
      (stop_traffic s d).1.packet_count = s.packet_count ∧
      (stop_traffic s d).1.byte_count = s.byte_count) ∧
    (∀ (s : Session) (d : Bool), s.running = false →
      (stop_traffic s d).1.packet_count = s.packet_count ∧
      (stop_traffic s d).1.byte_count = s.byte_count ∧
      (stop_traffic s d).1.running = false) := by
  refine ⟨setup_backend_counts, find_device_counts, generate_traffic_counts_le, ?_, ?_⟩
  · intro s d
    simp [stop_traffic]
  · intro s d _
    simp [stop_traffic]

/-- C4 witness: stopping an idle session with nonzero counters keeps the
counters and leaves running false. -/
theorem counters_monotone_witness :
    (stop_traffic { initSession with packet_count := 3, byte_count := 384 } false).1.packet_count = 3 ∧
    (stop_traffic { initSession with packet_count := 3, byte_count := 384 } false).1.byte_count = 384 ∧
    (stop_traffic { initSession with packet_count := 3, byte_count := 384 } false).1.running = false :=
  counters_monotone.2.2.2.2 { initSession with packet_count := 3, byte_count := 384 } false rfl

/-- C2: when the device's default interface has zero bulk OUT endpoints,
`generate_traffic` logs the no-output-endpoint error and returns before the
transfer loop: the trace has no start-of-traffic event and the packet and
byte counters are untouched. -/
theorem generate_traffic_no_out_endpoint (s : Session) (dev : Device)
    (inputs : List IterInput)
    (hdev : s.device = some dev)
    (hnoout : ∀ ep ∈ dev.endpoints,
      ¬(endpoint_type ep.bmAttributes = ENDPOINT_TYPE_BULK ∧
        endpoint_direction ep.bEndpointAddress = ENDPOINT_OUT)) :
    (generate_traffic s inputs).2 =
      [LogEvent.noOutputEndpointErr, LogEvent.trafficStopped] ∧
    LogEvent.startingTraffic ∉ (generate_traffic s inputs).2 ∧
    (generate_traffic s inputs).1.packet_count = s.packet_count ∧
    (generate_traffic s inputs).1.byte_count = s.byte_count := by
  have hb : ∀ ep ∈ dev.endpoints, isBulkOut ep = false := by
    intro ep hep
    have h := hnoout ep hep
    cases h1 : (endpoint_type ep.bmAttributes == ENDPOINT_TYPE_BULK) <;>
      cases h2 : (endpoint_direction ep.bEndpointAddress == ENDPOINT_OUT) <;>
      simp_all [isBulkOut]
  have hscan := scanEndpoints_fst_eq_none dev.endpoints hb
  simp [generate_traffic, hdev, hscan, execUntilRet, noOutputEndpointBlock]

/-- C2 witness: a device whose only endpoint is bulk IN (address 0x81)
yields the error and leaves the counters of a running session at their old
values. -/
theorem generate_traffic_no_out_endpoint_witness :
    (generate_traffic
        { initSession with running := true,
                           device := some ⟨0x1FAE, 0x0013, [⟨0x81, 0x02⟩]⟩ }
        [⟨false, .ok 64, .ok 64⟩]).2 =
      [LogEvent.noOutputEndpointErr, LogEvent.trafficStopped] ∧
    LogEvent.startingTraffic ∉
      (generate_traffic
        { initSession with running := true,
                           device := some ⟨0x1FAE, 0x0013, [⟨0x81, 0x02⟩]⟩ }
        [⟨false, .ok 64, .ok 64⟩]).2 ∧
    (generate_traffic
        { initSession with running := true,
                           device := some ⟨0x1FAE, 0x0013, [⟨0x81, 0x02⟩]⟩ }
        [⟨false, .ok 64, .ok 64⟩]).1.packet_count = 0 ∧
    (generate_traffic
        { initSession with running := true,
                           device := some ⟨0x1FAE, 0x0013, [⟨0x81, 0x02⟩]⟩ }
        [⟨false, .ok 64, .ok 64⟩]).1.byte_count = 0 :=
  generate_traffic_no_out_endpoint
    { initSession with running := true,
                       device := some ⟨0x1FAE, 0x0013, [⟨0x81, 0x02⟩]⟩ }
    ⟨0x1FAE, 0x0013, [⟨0x81, 0x02⟩]⟩ [⟨false, .ok 64, .ok 64⟩] rfl (by decide)

/-! ### Device discovery -/

lemma find_device_found (env : Env) (s : Session) (d0 : Device)
    (hsc : s.setup_complete = true)
    (hcfg : env.setConfigResult = SetCfgResult.ok)
    (hkd : (env.kernelDriverActive && env.detachFails) = false)
    (hfind : usb_core_find env.bus LUMIDIGM_VID LUMIDIGM_PID = some d0) :
    (find_device env s).2.1 = true ∧ (find_device env s).1.device = some d0 := by
  cases hp : env.platform
  · cases hr : env.resetFails <;> simp [find_device, hsc, hfind, hcfg, hp, hr]
  · cases hk : env.kernelDriverActive <;>
      simp_all [find_device, hsc, hfind, hcfg, hp]

lemma find_device_absent (env : Env) (s : Session)
    (hsc : s.setup_complete = true)
    (hfind : usb_core_find env.bus LUMIDIGM_VID LUMIDIGM_PID = none) :
    (find_device env s).2.1 = false ∧
    (find_device env s).2.2 = [LogEvent.enumerated, LogEvent.deviceNotFound] := by
  simp [find_device, hsc, hfind]

/-- C5: with the backend ready and the platform configuration calls
succeeding, `find_device` succeeds exactly when some attached device carries
the fixed vendor/product pair; on success the session holds the first such
device (which matches the pair and lies on the bus), and when no such device
is attached it fails with the device-not-found error. -/
theorem find_device_matches (env : Env) (s : Session)
    (hsc : s.setup_complete = true)
    (hcfg : env.setConfigResult = SetCfgResult.ok)
    (hkd : (env.kernelDriverActive && env.detachFails) = false) :
    ((find_device env s).2.1 = true ↔
      ∃ d ∈ env.bus, d.idVendor = LUMIDIGM_VID ∧ d.idProduct = LUMIDIGM_PID) ∧
    (∀ d0, usb_core_find env.bus LUMIDIGM_VID LUMIDIGM_PID = some d0 →
      (find_device env s).1.device = some d0 ∧ d0 ∈ env.bus ∧
      d0.idVendor = LUMIDIGM_VID ∧ d0.idProduct = LUMIDIGM_PID) ∧
    ((∀ d ∈ env.bus, ¬(d.idVendor = LUMIDIGM_VID ∧ d.idProduct = LUMIDIGM_PID)) →
      (find_device env s).2.1 = false ∧
      LogEvent.deviceNotFound ∈ (find_device env s).2.2) := by
  have hiff : (usb_core_find env.bus LUMIDIGM_VID LUMIDIGM_PID).isSome = true ↔
      ∃ d ∈ env.bus, d.idVendor = LUMIDIGM_VID ∧ d.idProduct = LUMIDIGM_PID := by
    unfold usb_core_find
    rw [List.find?_isSome]
    constructor
    · rintro ⟨x, hx, hpx⟩
      simp only [Bool.and_eq_true, beq_iff_eq] at hpx
      exact ⟨x, hx, hpx⟩
    · rintro ⟨x, hx, h1, h2⟩
      exact ⟨x, hx, by simp [h1, h2]⟩
  refine ⟨?_, ?_, ?_⟩
  · rcases hfind : usb_core_find env.bus LUMIDIGM_VID LUMIDIGM_PID with _ | d0
    · rw [(find_device_absent env s hsc hfind).1]
      rw [hfind] at hiff
      simpa using hiff
    · rw [(find_device_found env s d0 hsc hcfg hkd hfind).1]
      rw [hfind] at hiff
      simpa using hiff
  · intro d0 hfind
    have hmem : d0 ∈ env.bus := List.mem_of_find?_eq_some hfind
    have hprop := List.find?_some hfind
    simp only [Bool.and_eq_true, beq_iff_eq] at hprop
    exact ⟨(find_device_found env s d0 hsc hcfg hkd hfind).2, hmem, hprop⟩
  · intro habs
    have hfind : usb_core_find env.bus LUMIDIGM_VID LUMIDIGM_PID = none := by
      unfold usb_core_find
      rw [List.find?_eq_none]
      intro d hd
      simp only [Bool.and_eq_true, beq_iff_eq, not_and]
      intro h1 h2
      exact habs d hd ⟨h1, h2⟩
    have h := find_device_absent env s hsc hfind
    rw [h.1, h.2]
    simp

/-- C5 witness: on a bus holding exactly the Lumidigm device, `find_device`
succeeds and stores that device; on an empty bus it fails with the
device-not-found event. -/
theorem find_device_matches_witness :
    (find_device
        ⟨Platform.windows, [true], [⟨0x1FAE, 0x0013, [⟨0x02, 0x02⟩]⟩], false,
          SetCfgResult.ok, false, false⟩
        { initSession with setup_complete := true }).1.device =
      some ⟨0x1FAE, 0x0013, [⟨0x02, 0x02⟩]⟩ ∧
    (find_device
        ⟨Platform.windows, [true], [], false, SetCfgResult.ok, false, false⟩
        { initSession with setup_complete := true }).2.1 = false := by
  constructor
  · exact ((find_device_matches
      ⟨Platform.windows, [true], [⟨0x1FAE, 0x0013, [⟨0x02, 0x02⟩]⟩], false,
        SetCfgResult.ok, false, false⟩
      { initSession with setup_complete := true } rfl rfl rfl).2.1
      ⟨0x1FAE, 0x0013, [⟨0x02, 0x02⟩]⟩ (by decide)).1
  · exact ((find_device_matches
      ⟨Platform.windows, [true], [], false, SetCfgResult.ok, false, false⟩
      { initSession with setup_complete := true } rfl rfl rfl).2.2
      (by decide)).1

/-- C6: on the Windows path with none of the known libusb locations
present and setup not yet done, `find_device` fails reporting only the
backend-not-found error; in particular the bus is never enumerated. -/
theorem find_device_backend_missing (env : Env) (s : Session)
    (hp : env.platform = Platform.windows)
    (hsc : s.setup_complete = false)
    (hpaths : ∀ b ∈ env.pathExists, b = false) :
    (find_device env s).2.1 = false ∧
    (find_device env s).2.2 = [LogEvent.backendNotFound] ∧
    LogEvent.enumerated ∉ (find_device env s).2.2 := by
  have hidx : env.pathExists.findIdx? (fun b => b) = none := by
    rw [List.findIdx?_eq_none_iff]
    intro x hx
    exact hpaths x hx
  simp [find_device, setup_backend, hp, hsc, hidx]

/-- C6 witness: all three candidate paths absent on Windows. -/
theorem find_device_backend_missing_witness :
    (find_device
        ⟨Platform.windows, [false, false, false], [⟨0x1FAE, 0x0013, []⟩], false,
          SetCfgResult.ok, false, false⟩ initSession).2.1 = false ∧
    (find_device
        ⟨Platform.windows, [false, false, false], [⟨0x1FAE, 0x0013, []⟩], false,
          SetCfgResult.ok, false, false⟩ initSession).2.2 = [LogEvent.backendNotFound] ∧
    LogEvent.enumerated ∉
      (find_device
        ⟨Platform.windows, [false, false, false], [⟨0x1FAE, 0x0013, []⟩], false,
          SetCfgResult.ok, false, false⟩ initSession).2.2 :=
  find_device_backend_missing
    ⟨Platform.windows, [false, false, false], [⟨0x1FAE, 0x0013, []⟩], false,
      SetCfgResult.ok, false, false⟩ initSession rfl rfl (by decide)

/-- C7: on the Windows reset-then-configure path, a `USBError` from
`set_configuration` (with the reset outcome arbitrary) is only a logged
warning: `find_device` still succeeds holding the found device, and the
session started from it with the running flag set reaches the transfer loop
whenever the device has a bulk OUT endpoint. -/
theorem find_device_config_warning_nonfatal (env : Env) (s : Session)
    (dev : Device) (ep : Endpoint) (inputs : List IterInput)
    (hp : env.platform = Platform.windows)
    (hsc : s.setup_complete = true)
    (hcfg : env.setConfigResult = SetCfgResult.usbErr)
    (hfind : usb_core_find env.bus LUMIDIGM_VID LUMIDIGM_PID = some dev)
    (hep : (scanEndpoints dev.endpoints).1 = some ep) :
    (find_device env s).2.1 = true ∧
    LogEvent.configWarning ∈ (find_device env s).2.2 ∧
    (find_device env s).1.device = some dev ∧
    LogEvent.startingTraffic ∈
      (generate_traffic { (find_device env s).1 with running := true } inputs).2 := by
  cases hr : env.resetFails <;>
    simp [find_device, generate_traffic, hp, hsc, hcfg, hfind, hep, hr]

/-- C7 witness: reset fails and configuration-set raises a `USBError`, yet
the session reaches the loop on a device with one bulk OUT endpoint. -/
theorem find_device_config_warning_nonfatal_witness :
    (find_device
        ⟨Platform.windows, [true], [⟨0x1FAE, 0x0013, [⟨0x02, 0x02⟩]⟩], true,
          SetCfgResult.usbErr, false, false⟩
        { initSession with setup_complete := true }).2.1 = true ∧
    LogEvent.configWarning ∈
      (find_device
        ⟨Platform.windows, [true], [⟨0x1FAE, 0x0013, [⟨0x02, 0x02⟩]⟩], true,
          SetCfgResult.usbErr, false, false⟩
        { initSession with setup_complete := true }).2.2 ∧
    (find_device
        ⟨Platform.windows, [true], [⟨0x1FAE, 0x0013, [⟨0x02, 0x02⟩]⟩], true,
          SetCfgResult.usbErr, false, false⟩
        { initSession with setup_complete := true }).1.device =
      some ⟨0x1FAE, 0x0013, [⟨0x02, 0x02⟩]⟩ ∧
    LogEvent.startingTraffic ∈
      (generate_traffic
        { (find_device
            ⟨Platform.windows, [true], [⟨0x1FAE, 0x0013, [⟨0x02, 0x02⟩]⟩], true,
              SetCfgResult.usbErr, false, false⟩
            { initSession with setup_complete := true }).1 with running := true }
        []).2 :=
  find_device_config_warning_nonfatal
    ⟨Platform.windows, [true], [⟨0x1FAE, 0x0013, [⟨0x02, 0x02⟩]⟩], true,
      SetCfgResult.usbErr, false, false⟩
    { initSession with setup_complete := true }
    ⟨0x1FAE, 0x0013, [⟨0x02, 0x02⟩]⟩ ⟨0x02, 0x02⟩ [] rfl rfl rfl (by decide) (by decide)

end PyUSBTraffic
